import Mathlib

/-
Shallow embedding of the customer-support backend in src/main.py.

The MongoDB customers collection is modelled as an association list from
document identifiers to customer documents; the plans collection as a list of
plan documents. Each agent tool (customer_plan, list_available_plans,
escalate_to_l2) becomes a function from the database state to a new state and
a result. Timestamps (datetime values) are modelled as integers; a BSON
ObjectId is modelled as its canonical 24-character hexadecimal string form.
-/

namespace CSAgent

/-- Customer document as written by the creation endpoint, plus the optional
escalation_log field set only by the escalate_to_l2 tool. -/
structure Customer where
  name : String
  subscribed_plan : String
  renewal_date : Int
  average_usage : Nat
  escalation_log : Option String := none
deriving Repr, DecidableEq

/-- Structured agent output, mirroring the SupportResult pydantic model
(support_advice, block_card, risk with 0 ≤ risk ≤ 10, escalation_summary
defaulting to the empty string). -/
structure SupportResult where
  support_advice : String
  block_card : Bool
  risk : Nat
  escalation_summary : String
deriving Repr, DecidableEq

/-- Plan document fields read by list_available_plans. -/
structure Plan where
  name : String
  description : String
  cost : Int
deriving Repr, DecidableEq

/-- Projection of a plan document returned by list_available_plans:
exactly the fields name, description and cost. -/
structure PlanView where
  name : String
  description : String
  cost : Int
deriving Repr, DecidableEq

/-- A BSON ObjectId, modelled by its 24-character hexadecimal string form. -/
abbrev ObjectId := String

/-- The customers collection: documents keyed by their unique identifier. -/
abbrev Store := List (ObjectId × Customer)

/-- Full database state: the customers and plans collections. -/
structure DB where
  customers : Store
  plans : List Plan
deriving Repr, DecidableEq

/-- Model of find_one on the customers collection keyed by the id field:
the first document whose key equals the requested id, if any. -/
def findCustomer : Store → ObjectId → Option Customer
  | [], _ => none
  | p :: rest, oid => if p.1 = oid then some p.2 else findCustomer rest oid

/-- Model of update_one with a set of the escalation_log field: rewrite the
escalation_log of the first document matching the id, leaving the rest of the
collection unchanged. -/
def updateEscalationLog : Store → ObjectId → String → Store
  | [], _, _ => []
  | p :: rest, oid, issue =>
    if p.1 = oid then (p.1, { p.2 with escalation_log := some issue }) :: rest
    else p :: updateEscalationLog rest oid issue

/-- Model of insert_one: the new document is appended to the collection under
the freshly generated identifier. -/
def insert_one (customers : Store) (newId : ObjectId) (c : Customer) : Store :=
  customers ++ [(newId, c)]

/-- Decision rules of the customer_plan tool, applied to the outcome of the
customer lookup and the current time: the Basic Hosting high-usage rule first,
then the past-renewal rule, then the healthy default, with a fixed
account-not-found result when the lookup returned nothing. -/
def customer_plan (customer : Option Customer) (now : Int) : SupportResult :=
  match customer with
  | none =>
      { support_advice := "I was unable to find your account. Please check your customer ID and try again."
        block_card := false
        risk := 0
        escalation_summary := "" }
  | some c =>
      if c.subscribed_plan = "Basic Hosting" ∧ c.average_usage > 70 then
        { support_advice := "Your plan is active, but you are exceeding your average usage. Consider upgrading your plan."
          block_card := false
          risk := 5
          escalation_summary := "" }
      else if c.renewal_date < now then
        { support_advice := "Your renewal date has passed. Please renew your plan to avoid service interruption."
          block_card := false
          risk := 9
          escalation_summary := "Customer\x27s renewal date is past due." }
      else
        { support_advice := "Your plan is active. If you have any issues, please contact support."
          block_card := false
          risk := 0
          escalation_summary := "" }

/-- The customer_plan tool as a state transformer: it only reads the customers
collection and applies the decision rules. -/
def customer_plan_tool (db : DB) (customer_id : ObjectId) (now : Int) : DB × SupportResult :=
  (db, customer_plan (findCustomer db.customers customer_id) now)

/-- Model of list_available_plans: find with to_list bounded to length 10,
each plan projected to name, description and cost. -/
def list_available_plans (plans : List Plan) : List PlanView :=
  (plans.take 10).map fun p => { name := p.name, description := p.description, cost := p.cost }

/-- The list_available_plans tool as a state transformer: it performs no
write. -/
def list_plans_tool (db : DB) : DB × List PlanView :=
  (db, list_available_plans db.plans)

/-- Model of escalate_to_l2: find_one on the bound customer id; if a document
is found, set its escalation_log to issue_summary and return the formatted
escalation summary built from the stored name, plan and the issue; otherwise
return the failure string and leave the collection untouched. -/
def escalate_to_l2 (customers : Store) (customer_id : ObjectId) (issue_summary : String) :
    Store × String :=
  match findCustomer customers customer_id with
  | some customer =>
      (updateEscalationLog customers customer_id issue_summary,
       "Escalation Summary:\nCustomer: " ++ customer.name ++ "\nPlan: "
         ++ customer.subscribed_plan ++ "\nIssue: " ++ issue_summary)
  | none => (customers, "Escalation failed: Customer not found.")

/-- The escalate_to_l2 tool as a state transformer on the full database
state. -/
def escalate_tool (db : DB) (customer_id : ObjectId) (issue_summary : String) : DB × String :=
  let r := escalate_to_l2 db.customers customer_id issue_summary
  ({ db with customers := r.1 }, r.2)

/-- Running a sequence of escalate_to_l2 calls against the same customer id,
threading the customers collection through. -/
def runEscalations (customers : Store) (customer_id : ObjectId) (issues : List String) : Store :=
  issues.foldl (fun s issue => (escalate_to_l2 s customer_id issue).1) customers

/-- Hexadecimal digit test used by the ObjectId string format. -/
def isHexChar (c : Char) : Bool :=
  c.isDigit || (97 ≤ c.toNat && c.toNat ≤ 102) || (65 ≤ c.toNat && c.toNat ≤ 70)

/-- Model of the bson ObjectId constructor on strings: it succeeds exactly on
24-character hexadecimal strings and otherwise raises InvalidId, modelled here
as returning none. -/
def objectIdParse (s : String) : Option ObjectId :=
  if s.length = 24 && s.data.all isHexChar then some s else none

/-- Failure value modelling fastapi.HTTPException: a status code and a detail
message. -/
structure HTTPError where
  status_code : Nat
  detail : String
deriving Repr, DecidableEq

/-- Model of str_to_objectid: convert the string, and on failure raise an
HTTPException with status 400 and a detail wrapping the InvalidId message. -/
def str_to_objectid (v : String) : Except HTTPError ObjectId :=
  match objectIdParse v with
  | some oid => Except.ok oid
  | none =>
      Except.error
        { status_code := 400
          detail := "Invalid ObjectId format: \x27" ++ v
            ++ "\x27 is not a valid ObjectId, it must be a 12-byte input or a 24-character hex string" }

/-- Validated support-query payload: the parsed customer id and the free-text
query. -/
structure SupportQuery where
  customer_id : ObjectId
  query : String
deriving Repr, DecidableEq

/-- Model of SupportQuery.parse_obj: parse the customer_id field through
str_to_objectid, re-raising its HTTPException on failure. -/
def SupportQuery.parse_obj (customer_id : String) (query : String) :
    Except HTTPError SupportQuery :=
  match str_to_objectid customer_id with
  | Except.ok oid => Except.ok { customer_id := oid, query := query }
  | Except.error e => Except.error e

/-- Body of a test_lookup response: either the looked-up document (possibly
absent) or the error dictionary built from the caught exception text. -/
inductive LookupBody where
  | doc : Option Customer → LookupBody
  | err : String → LookupBody
deriving Repr, DecidableEq

/-- An HTTP response from the test_lookup endpoint: status code and body. -/
structure LookupResponse where
  status : Nat
  body : LookupBody
deriving Repr, DecidableEq

/-- Model of the GET test_lookup endpoint: convert the path parameter with the
ObjectId constructor inside a try block; on success return the find_one result
as the body, and on InvalidId return the error dictionary. Both paths return a
normal response, so the framework status is 200. -/
def test_lookup (customers : Store) (customer_id : String) : LookupResponse :=
  match objectIdParse customer_id with
  | some oid => { status := 200, body := LookupBody.doc (findCustomer customers oid) }
  | none =>
      { status := 200
        body := LookupBody.err ("\x27" ++ customer_id
          ++ "\x27 is not a valid ObjectId, it must be a 12-byte input or a 24-character hex string") }

/-- Request body of the customer creation endpoint (CustomerCreate pydantic
model): name, subscribed_plan, renewal_date, average_usage with
average_usage ≥ 0. -/
structure CustomerCreate where
  name : String
  subscribed_plan : String
  renewal_date : Int
  average_usage : Nat
deriving Repr, DecidableEq

/-- The document stored for a creation request: the submitted fields, with no
escalation_log yet. -/
def customerOfCreate (c : CustomerCreate) : Customer :=
  { name := c.name
    subscribed_plan := c.subscribed_plan
    renewal_date := c.renewal_date
    average_usage := c.average_usage
    escalation_log := none }

/-- FastAPI filtering of a returned document through the declared
response_model CustomerCreate: only the four declared fields survive; the
id field of the stored document is not part of the response model. -/
def response_model_filter (c : Customer) : CustomerCreate :=
  { name := c.name
    subscribed_plan := c.subscribed_plan
    renewal_date := c.renewal_date
    average_usage := c.average_usage }

/-- Model of the create_customer endpoint: insert the submitted document under
a freshly generated identifier, read it back with find_one, and answer with
the document filtered through the CustomerCreate response model. -/
def create_customer (customers : Store) (newId : ObjectId) (c : CustomerCreate) :
    Store × Option CustomerCreate :=
  let store2 := insert_one customers newId (customerOfCreate c)
  (store2, (findCustomer store2 newId).map response_model_filter)

/-- Looking up the updated id after an escalation-log write returns the
previously stored document with its escalation_log overwritten. -/
theorem findCustomer_updateEscalationLog (s : Store) (oid : ObjectId) (issue : String) :
    findCustomer (updateEscalationLog s oid issue) oid =
      (findCustomer s oid).map fun c => { c with escalation_log := some issue } := by
  induction s with
  | nil => rfl
  | cons p rest ih =>
      by_cases h : p.1 = oid
      · simp [updateEscalationLog, findCustomer, h]
      · simp [updateEscalationLog, findCustomer, h, ih]

/-- When the customer exists, escalate_to_l2 performs the escalation-log write
and returns the formatted summary. -/
theorem escalate_found (s : Store) (oid : ObjectId) (issue : String) (c : Customer)
    (hc : findCustomer s oid = some c) :
    escalate_to_l2 s oid issue =
      (updateEscalationLog s oid issue,
       "Escalation Summary:\nCustomer: " ++ c.name ++ "\nPlan: "
         ++ c.subscribed_plan ++ "\nIssue: " ++ issue) := by
  simp [escalate_to_l2, hc]

/-- Writing the same escalation_log value twice gives the same collection as
writing it once. -/
theorem updateEscalationLog_idem (oid : ObjectId) (issue : String) : ∀ s : Store,
    updateEscalationLog (updateEscalationLog s oid issue) oid issue =
      updateEscalationLog s oid issue
  | [] => rfl
  | p :: rest => by
      by_cases h : p.1 = oid
      · simp [updateEscalationLog, h]
      · simp [updateEscalationLog, h, updateEscalationLog_idem oid issue rest]

/-- After any sequence of escalations ending in a last issue, the stored
document is the original one with its escalation_log set to that last
issue. -/
theorem runEscalations_append_last (oid : ObjectId) (issue : String) :
    ∀ (issues : List String) (s : Store) (c : Customer), findCustomer s oid = some c →
      findCustomer (runEscalations s oid (issues ++ [issue])) oid =
        some { c with escalation_log := some issue }
  | [], s, c, hc => by
      simp [runEscalations, escalate_found s oid issue c hc,
        findCustomer_updateEscalationLog, hc]
  | j :: tl, s, c, hc => by
      have h1 : findCustomer (escalate_to_l2 s oid j).1 oid =
          some { c with escalation_log := some j } := by
        simp [escalate_found s oid j c hc, findCustomer_updateEscalationLog, hc]
      have h2 := runEscalations_append_last oid issue tl (escalate_to_l2 s oid j).1 _ h1
      simpa [runEscalations] using h2

/-- Inserting a document under a fresh identifier makes it the one found under
that identifier afterwards. -/
theorem findCustomer_insert_fresh (oid : ObjectId) (c : Customer) :
    ∀ customers : Store, findCustomer customers oid = none →
      findCustomer (insert_one customers oid c) oid = some c
  | [], _ => by simp [insert_one, findCustomer]
  | p :: rest, h => by
      by_cases hp : p.1 = oid
      · simp [findCustomer, hp] at h
      · have h2 : findCustomer rest oid = none := by simpa [findCustomer, hp] using h
        simpa [insert_one, findCustomer, hp] using findCustomer_insert_fresh oid c rest h2

/-- Claim C1: for every customer subscribed to the entry-level plan
"Basic Hosting" whose average_usage is strictly greater than 70, the decision
rules return risk 5, block_card false and an empty escalation_summary,
whatever the renewal_date is. -/
theorem usage_rule_has_priority (c : Customer) (now : Int)
    (hplan : c.subscribed_plan = "Basic Hosting") (husage : c.average_usage > 70) :
    customer_plan (some c) now =
      { support_advice := "Your plan is active, but you are exceeding your average usage. Consider upgrading your plan."
        block_card := false
        risk := 5
        escalation_summary := "" } := by
  simp [customer_plan, hplan, husage]

/-- Witness for C1 at a concrete customer whose renewal date is already past,
showing the usage rule wins over the renewal rule. -/
theorem usage_rule_has_priority_witness :
    customer_plan (some ⟨"Ada", "Basic Hosting", 0, 85, none⟩) 100 =
      { support_advice := "Your plan is active, but you are exceeding your average usage. Consider upgrading your plan."
        block_card := false
        risk := 5
        escalation_summary := "" } :=
  usage_rule_has_priority ⟨"Ada", "Basic Hosting", 0, 85, none⟩ 100 rfl (by decide)

/-- Claim C2 counterexample: a customer past renewal (and not matching the
usage rule) gets risk 9, but the escalation_summary the code stores starts
with the word Customer and is not the string "renewal date is past due"
claimed by the spec. -/
theorem renewal_summary_counterexample :
    (customer_plan (some ⟨"Bob", "Pro Hosting", 0, 10, none⟩) 1).risk = 9 ∧
    (customer_plan (some ⟨"Bob", "Pro Hosting", 0, 10, none⟩) 1).escalation_summary ≠
      "renewal date is past due" := by
  decide

/-- Claim C2 (amended): for every customer not matching the usage rule whose
renewal_date is strictly before now, the decision rules return risk 9,
block_card false, advice to renew immediately, and a non-empty
escalation_summary carrying the fixed past-due message of the code. -/
theorem renewal_rule (c : Customer) (now : Int)
    (hnot : ¬ (c.subscribed_plan = "Basic Hosting" ∧ c.average_usage > 70))
    (hdate : c.renewal_date < now) :
    customer_plan (some c) now =
      { support_advice := "Your renewal date has passed. Please renew your plan to avoid service interruption."
        block_card := false
        risk := 9
        escalation_summary := "Customer\x27s renewal date is past due." } ∧
    (customer_plan (some c) now).escalation_summary ≠ "" := by
  refine ⟨by simp [customer_plan, hnot, hdate], ?_⟩
  simp [customer_plan, hnot, hdate]

/-- Witness for C2 (amended) at a concrete past-due customer. -/
theorem renewal_rule_witness :
    customer_plan (some ⟨"Bob", "Pro Hosting", 0, 10, none⟩) 1 =
      { support_advice := "Your renewal date has passed. Please renew your plan to avoid service interruption."
        block_card := false
        risk := 9
        escalation_summary := "Customer\x27s renewal date is past due." } ∧
    (customer_plan (some ⟨"Bob", "Pro Hosting", 0, 10, none⟩) 1).escalation_summary ≠ "" :=
  renewal_rule ⟨"Bob", "Pro Hosting", 0, 10, none⟩ 1 (by decide) (by decide)

/-- Claim C3: for every customer matching neither the usage rule nor the
past-renewal rule, the decision rules return risk 0, block_card false and an
empty escalation_summary. -/
theorem healthy_rule (c : Customer) (now : Int)
    (hnot : ¬ (c.subscribed_plan = "Basic Hosting" ∧ c.average_usage > 70))
    (hdate : ¬ c.renewal_date < now) :
    customer_plan (some c) now =
      { support_advice := "Your plan is active. If you have any issues, please contact support."
        block_card := false
        risk := 0
        escalation_summary := "" } := by
  simp [customer_plan, hnot, hdate]

/-- Witness for C3 at a concrete healthy customer. -/
theorem healthy_rule_witness :
    customer_plan (some ⟨"Carol", "Basic Hosting", 100, 30, none⟩) 50 =
      { support_advice := "Your plan is active. If you have any issues, please contact support."
        block_card := false
        risk := 0
        escalation_summary := "" } :=
  healthy_rule ⟨"Carol", "Basic Hosting", 100, 30, none⟩ 50 (by decide) (by decide)

/-- Claim C4: when the bound customer id matches no stored document, the
customer_plan tool returns the fixed account-not-found result with risk 0,
block_card false and empty escalation_summary, leaving the database untouched;
the lookup path is total, so absence is a normal structured outcome. -/
theorem absent_customer_fixed_result (db : DB) (oid : ObjectId) (now : Int)
    (h : findCustomer db.customers oid = none) :
    customer_plan_tool db oid now =
      (db,
       { support_advice := "I was unable to find your account. Please check your customer ID and try again."
         block_card := false
         risk := 0
         escalation_summary := "" }) := by
  simp [customer_plan_tool, h, customer_plan]

/-- Witness for C4 on the empty customers collection. -/
theorem absent_customer_fixed_result_witness :
    customer_plan_tool ⟨[], []⟩ ("ffffffffffffffffffffffff") 123 =
      (⟨[], []⟩,
       { support_advice := "I was unable to find your account. Please check your customer ID and try again."
         block_card := false
         risk := 0
         escalation_summary := "" }) :=
  absent_customer_fixed_result ⟨[], []⟩ ("ffffffffffffffffffffffff") 123 rfl

/-- Claim C10: every outcome of the decision rules, found or not, has
block_card false and a risk value among 0, 5 and 9. -/
theorem decision_rules_invariant (customer : Option Customer) (now : Int) :
    (customer_plan customer now).block_card = false ∧
    ((customer_plan customer now).risk = 0 ∨ (customer_plan customer now).risk = 5 ∨
      (customer_plan customer now).risk = 9) := by
  cases customer with
  | none => simp [customer_plan]
  | some c =>
      by_cases h1 : c.subscribed_plan = "Basic Hosting" ∧ c.average_usage > 70
      · simp [customer_plan, h1]
      · by_cases h2 : c.renewal_date < now
        · simp [customer_plan, h1, h2]
        · simp [customer_plan, h1, h2]

/-- Claim C5: escalate_to_l2 on an existing customer overwrites that
document's escalation_log with the issue summary, whatever was stored there
before, and returns the summary built from the stored name, plan and the
issue; on a missing customer it returns the failure string and performs no
write. -/
theorem escalate_spec (customers : Store) (oid : ObjectId) (issue : String) :
    (∀ c, findCustomer customers oid = some c →
      findCustomer (escalate_to_l2 customers oid issue).1 oid =
          some { c with escalation_log := some issue } ∧
      (escalate_to_l2 customers oid issue).2 =
          "Escalation Summary:\nCustomer: " ++ c.name ++ "\nPlan: "
            ++ c.subscribed_plan ++ "\nIssue: " ++ issue) ∧
    (findCustomer customers oid = none →
      escalate_to_l2 customers oid issue =
        (customers, "Escalation failed: Customer not found.")) := by
  constructor
  · intro c hc
    rw [escalate_found customers oid issue c hc]
    exact ⟨by simp [findCustomer_updateEscalationLog, hc], rfl⟩
  · intro h
    simp [escalate_to_l2, h]

/-- Witness for C5: a concrete escalation overwrites a previously stored log,
and escalating a missing customer leaves the empty collection unchanged. -/
theorem escalate_spec_witness :
    findCustomer
        (escalate_to_l2
          ([(("cafecafecafecafecafecafe"), ⟨"Dan", "Basic Hosting", 5, 20, some ("old log")⟩)])
          ("cafecafecafecafecafecafe") ("site down")).1 ("cafecafecafecafecafecafe") =
      some ⟨"Dan", "Basic Hosting", 5, 20, some ("site down")⟩ ∧
    escalate_to_l2 ([]) ("cafecafecafecafecafecafe") ("site down") =
      ([], "Escalation failed: Customer not found.") :=
  ⟨((escalate_spec
        ([(("cafecafecafecafecafecafe"), ⟨"Dan", "Basic Hosting", 5, 20, some ("old log")⟩)])
        ("cafecafecafecafecafecafe") ("site down")).1
      ⟨"Dan", "Basic Hosting", 5, 20, some ("old log")⟩ rfl).1,
   (escalate_spec ([]) ("cafecafecafecafecafecafe") ("site down")).2 rfl⟩

/-- Claim C6: repeated escalate_to_l2 calls on the same existing customer have
last-write-wins effect: after any sequence of calls ending in a last issue the
stored escalation_log equals that last issue, and repeating an identical call
leaves the customers collection unchanged. -/
theorem escalate_idempotent (customers : Store) (oid : ObjectId) (c : Customer)
    (issues : List String) (lastIssue : String)
    (hc : findCustomer customers oid = some c) :
    findCustomer (runEscalations customers oid (issues ++ [lastIssue])) oid =
      some { c with escalation_log := some lastIssue } ∧
    (escalate_to_l2 (escalate_to_l2 customers oid lastIssue).1 oid lastIssue).1 =
      (escalate_to_l2 customers oid lastIssue).1 := by
  refine ⟨runEscalations_append_last oid lastIssue issues customers c hc, ?_⟩
  have h1 : (escalate_to_l2 customers oid lastIssue).1 =
      updateEscalationLog customers oid lastIssue := by
    rw [escalate_found customers oid lastIssue c hc]
  have h2 : findCustomer (escalate_to_l2 customers oid lastIssue).1 oid =
      some { c with escalation_log := some lastIssue } := by
    simp [h1, findCustomer_updateEscalationLog, hc]
  calc (escalate_to_l2 (escalate_to_l2 customers oid lastIssue).1 oid lastIssue).1
      = updateEscalationLog (updateEscalationLog customers oid lastIssue) oid lastIssue := by
        rw [escalate_found _ oid lastIssue _ h2, h1]
    _ = updateEscalationLog customers oid lastIssue :=
        updateEscalationLog_idem oid lastIssue customers
    _ = (escalate_to_l2 customers oid lastIssue).1 := h1.symm

/-- Witness for C6 on a concrete two-call sequence followed by a repeated
identical call. -/
theorem escalate_idempotent_witness :
    findCustomer
        (runEscalations ([(("beefbeefbeefbeefbeefbeef"), ⟨"Eve", "Pro Hosting", 9, 50, none⟩)])
          ("beefbeefbeefbeefbeefbeef") (["first issue"] ++ ["second issue"]))
        ("beefbeefbeefbeefbeefbeef") =
      some ⟨"Eve", "Pro Hosting", 9, 50, some ("second issue")⟩ ∧
    (escalate_to_l2
        (escalate_to_l2 ([(("beefbeefbeefbeefbeefbeef"), ⟨"Eve", "Pro Hosting", 9, 50, none⟩)])
          ("beefbeefbeefbeefbeefbeef") ("second issue")).1
        ("beefbeefbeefbeefbeefbeef") ("second issue")).1 =
      (escalate_to_l2 ([(("beefbeefbeefbeefbeefbeef"), ⟨"Eve", "Pro Hosting", 9, 50, none⟩)])
        ("beefbeefbeefbeefbeefbeef") ("second issue")).1 :=
  escalate_idempotent ([(("beefbeefbeefbeefbeefbeef"), ⟨"Eve", "Pro Hosting", 9, 50, none⟩)])
    ("beefbeefbeefbeefbeefbeef") ⟨"Eve", "Pro Hosting", 9, 50, none⟩
    (["first issue"]) ("second issue") rfl

/-- Claim C7 counterexample: submitting the malformed id string zz to the
customer-lookup endpoint yields a response with status 200 carrying the error
text in its body, not a 4xx client error as claimed. -/
theorem lookup_malformed_not_4xx :
    (test_lookup ([]) ("zz")).status = 200 ∧
    ¬ (400 ≤ (test_lookup ([]) ("zz")).status ∧ (test_lookup ([]) ("zz")).status < 500) := by
  decide

/-- Claim C7 (amended): for every malformed (non-ObjectId) id string, the
support-query payload parser raises a 400 client error with a non-empty
descriptive detail through str_to_objectid, while the customer-lookup endpoint
catches the conversion failure and answers a normal 200 response whose body is
the non-empty error text; neither path is a 5xx or an unhandled fault. -/
theorem malformed_id_handling (s : String) (q : String) (customers : Store)
    (h : objectIdParse s = none) :
    (∃ e, str_to_objectid s = Except.error e ∧ e.status_code = 400 ∧ e.detail ≠ "") ∧
    (∃ e, SupportQuery.parse_obj s q = Except.error e ∧ e.status_code = 400) ∧
    (test_lookup customers s).status = 200 ∧
    (∃ msg, (test_lookup customers s).body = LookupBody.err msg ∧ msg ≠ "") := by
  have h1 : str_to_objectid s = Except.error
      { status_code := 400
        detail := "Invalid ObjectId format: \x27" ++ s
          ++ "\x27 is not a valid ObjectId, it must be a 12-byte input or a 24-character hex string" } := by
    simp [str_to_objectid, h]
  have h2 : SupportQuery.parse_obj s q = Except.error
      { status_code := 400
        detail := "Invalid ObjectId format: \x27" ++ s
          ++ "\x27 is not a valid ObjectId, it must be a 12-byte input or a 24-character hex string" } := by
    simp [SupportQuery.parse_obj, h1]
  have h3 : test_lookup customers s =
      { status := 200
        body := LookupBody.err ("\x27" ++ s
          ++ "\x27 is not a valid ObjectId, it must be a 12-byte input or a 24-character hex string") } := by
    simp [test_lookup, h]
  have hne1 : "Invalid ObjectId format: \x27" ++ s
      ++ "\x27 is not a valid ObjectId, it must be a 12-byte input or a 24-character hex string" ≠ "" := by
    intro hcontra
    have hlen := congrArg String.length hcontra
    rw [String.length_append, String.length_append] at hlen
    have hpos : 0 < ("Invalid ObjectId format: \x27").length := by decide
    have hzero : ("" : String).length = 0 := by decide
    omega
  have hne2 : "\x27" ++ s
      ++ "\x27 is not a valid ObjectId, it must be a 12-byte input or a 24-character hex string" ≠ "" := by
    intro hcontra
    have hlen := congrArg String.length hcontra
    rw [String.length_append, String.length_append] at hlen
    have hpos : 0 <
        ("\x27 is not a valid ObjectId, it must be a 12-byte input or a 24-character hex string").length := by
      decide
    have hzero : ("" : String).length = 0 := by decide
    omega
  exact ⟨⟨_, h1, rfl, hne1⟩, ⟨_, h2, rfl⟩, by rw [h3],
    ⟨"\x27" ++ s
      ++ "\x27 is not a valid ObjectId, it must be a 12-byte input or a 24-character hex string",
     by rw [h3], hne2⟩⟩

/-- Witness for C7 (amended) on the malformed id string zz. -/
theorem malformed_id_handling_witness :
    objectIdParse ("zz") = none ∧
    ((test_lookup ([]) ("zz")).status = 200 ∧
      (∃ msg, (test_lookup ([]) ("zz")).body = LookupBody.err msg ∧ msg ≠ "")) :=
  ⟨by decide, (malformed_id_handling ("zz") ("hello") ([]) (by decide)).2.2⟩

/-- Claim C8 counterexample: two creations differing only in the generated
identifier produce identical responses, so the creation response does not
include the generated identifier (the declared response_model CustomerCreate
strips every field outside name, subscribed_plan, renewal_date and
average_usage). -/
theorem create_response_omits_id :
    (create_customer ([]) ("aaaaaaaaaaaaaaaaaaaaaaaa") ⟨"Foo", "Basic Hosting", 7, 3⟩).2 =
      (create_customer ([]) ("bbbbbbbbbbbbbbbbbbbbbbbb") ⟨"Foo", "Basic Hosting", 7, 3⟩).2 ∧
    ("aaaaaaaaaaaaaaaaaaaaaaaa" : ObjectId) ≠ ("bbbbbbbbbbbbbbbbbbbbbbbb") := by
  decide

/-- Claim C8 (amended): creating a customer under a fresh generated identifier
answers with exactly the submitted name, subscribed_plan, renewal_date and
average_usage (the identifier itself is not part of the response), and
fetching the stored record by that generated identifier, directly or through
the lookup endpoint, returns a document with the same four fields. -/
theorem create_fetch_roundtrip (customers : Store) (newId : ObjectId) (c : CustomerCreate)
    (hfresh : findCustomer customers newId = none)
    (hid : objectIdParse newId = some newId) :
    (create_customer customers newId c).2 = some c ∧
    findCustomer (create_customer customers newId c).1 newId = some (customerOfCreate c) ∧
    test_lookup (create_customer customers newId c).1 newId =
      { status := 200, body := LookupBody.doc (some (customerOfCreate c)) } := by
  have hfind := findCustomer_insert_fresh newId (customerOfCreate c) customers hfresh
  refine ⟨?_, ?_, ?_⟩
  · have hdef : (create_customer customers newId c).2 =
        (findCustomer (insert_one customers newId (customerOfCreate c)) newId).map
          response_model_filter := rfl
    rw [hdef, hfind]
    rfl
  · simpa [create_customer] using hfind
  · simp [test_lookup, hid, create_customer, hfind]

/-- Witness for C8 (amended) on a concrete creation against the empty
collection. -/
theorem create_fetch_roundtrip_witness :
    (create_customer ([]) ("cccccccccccccccccccccccc") ⟨"Grace", "Pro Hosting", 42, 55⟩).2 =
      some ⟨"Grace", "Pro Hosting", 42, 55⟩ ∧
    findCustomer (create_customer ([]) ("cccccccccccccccccccccccc")
        ⟨"Grace", "Pro Hosting", 42, 55⟩).1 ("cccccccccccccccccccccccc") =
      some (customerOfCreate ⟨"Grace", "Pro Hosting", 42, 55⟩) ∧
    test_lookup (create_customer ([]) ("cccccccccccccccccccccccc")
        ⟨"Grace", "Pro Hosting", 42, 55⟩).1 ("cccccccccccccccccccccccc") =
      { status := 200
        body := LookupBody.doc (some (customerOfCreate ⟨"Grace", "Pro Hosting", 42, 55⟩)) } :=
  create_fetch_roundtrip ([]) ("cccccccccccccccccccccccc") ⟨"Grace", "Pro Hosting", 42, 55⟩
    rfl (by decide)

/-- Claim C9: the list_available_plans tool writes nothing, returns at most 10
plans, each being exactly the name, description and cost projection of a
stored plan, and returns the empty list on an empty plans collection. -/
theorem list_plans_spec (db : DB) :
    (list_plans_tool db).1 = db ∧
    (list_plans_tool db).2.length ≤ 10 ∧
    (∀ v ∈ (list_plans_tool db).2, ∃ p ∈ db.plans,
      v = { name := p.name, description := p.description, cost := p.cost }) ∧
    (db.plans = [] → (list_plans_tool db).2 = []) := by
  refine ⟨rfl, ?_, ?_, ?_⟩
  · have hlen : (list_plans_tool db).2.length = min 10 db.plans.length := by
      simp [list_plans_tool, list_available_plans]
    omega
  · intro v hv
    have hv2 : v ∈ (db.plans.take 10).map
        (fun p => ({ name := p.name, description := p.description, cost := p.cost } : PlanView)) := hv
    obtain ⟨p, hp, hpv⟩ := List.mem_map.1 hv2
    exact ⟨p, List.take_subset 10 db.plans hp, hpv.symm⟩
  · intro h
    simp [list_plans_tool, list_available_plans, h]

/-- Witness for C9 on the empty database: no write, empty result. -/
theorem list_plans_spec_witness :
    (list_plans_tool ⟨[], []⟩).1 = (⟨[], []⟩ : DB) ∧ (list_plans_tool ⟨[], []⟩).2 = [] :=
  ⟨(list_plans_spec ⟨[], []⟩).1, (list_plans_spec ⟨[], []⟩).2.2.2 rfl⟩

end CSAgent
